import Mathlib

/-!
Verification of the TeeTimeAI crawler (backend/src/tee_time_ai/crawler.py)
against its natural-language specification.

The Python code is shallowly embedded: pure string computations are
translated directly; DOM queries, network navigation and other external
effects are modelled as explicit environment records supplied to the
embedded functions.  Python strings are modelled as Lean `String` values
(operated on through their character lists); Python `dict` course records
become the `Course` structure, where `Option` distinguishes an absent key
from a present one and, for `booking_url`, `Option (Option String)`
distinguishes absent / present-as-null / present-as-string.
-/

namespace TeeTimeAI

/-! ## Character and string primitives (models of the Python `str` operations) -/

/-- Model of Python `str.lower` for the ASCII strings used by the crawler. -/
def lcChar (c : Char) : Char :=
  if 'A' ≤ c ∧ c ≤ 'Z' then Char.ofNat (c.toNat + 32) else c

/-- Lower-cased character list of a string (model of `s.lower()`). -/
def lcStr (s : String) : List Char := s.data.map lcChar

/-- Whether the first list is a prefix of the second (Boolean, executable). -/
def isPrefixL : List Char → List Char → Bool
  | [], _ => true
  | _ :: _, [] => false
  | p :: ps, c :: cs => p == c && isPrefixL ps cs

/-- Whether `pat` occurs as a contiguous substring of `hay`
(model of the Python `pat in hay` test on strings). -/
def containsL : List Char → List Char → Bool
  | [], pat => isPrefixL pat []
  | c :: rest, pat => isPrefixL pat (c :: rest) || containsL rest pat

/-- Model of Python `pat in hay.lower()` for a lower-case literal `pat`. -/
def containsLowered (hay pat : String) : Bool :=
  containsL (lcStr hay) pat.data

/-- Helper of `replaceAllL`: the `Nat` argument counts characters still to
be skipped because they belong to an already-replaced occurrence.  This
keeps the recursion structural (kernel-reducible) while matching Python's
left-to-right non-overlapping `str.replace`. -/
def replaceAllAux (pat rep : List Char) : Nat → List Char → List Char
  | _, [] => []
  | Nat.succ k, _ :: rest => replaceAllAux pat rep k rest
  | 0, c :: rest =>
    if isPrefixL pat (c :: rest) then rep ++ replaceAllAux pat rep (pat.length - 1) rest
    else c :: replaceAllAux pat rep 0 rest

/-- Model of Python `s.replace(pat, rep)` for a non-empty `pat`. -/
def replaceAllL (pat rep s : List Char) : List Char :=
  replaceAllAux pat rep 0 s

/-- Helper of `splitOnL`, with the same skip-counter technique as
`replaceAllAux` so that the recursion is structural. -/
def splitOnAux (sep : List Char) : Nat → List Char → List (List Char)
  | _, [] => [[]]
  | Nat.succ k, _ :: rest => splitOnAux sep k rest
  | 0, c :: rest =>
    if isPrefixL sep (c :: rest) then
      [] :: splitOnAux sep (sep.length - 1) rest
    else
      match splitOnAux sep 0 rest with
      | [] => [[c]]
      | piece :: more => (c :: piece) :: more

/-- Model of Python `s.split(sep)` for a non-empty separator. -/
def splitOnL (sep s : List Char) : List (List Char) :=
  splitOnAux sep 0 s

/-- Model of Python `s.split(sep)[-1]`. -/
def splitLastPiece (sep s : List Char) : List Char :=
  (splitOnL sep s).getLastD []

/-- Model of Python `s.split(sep)[0]`. -/
def splitFirstPiece (sep s : List Char) : List Char :=
  (splitOnL sep s).headD []

/-- Helper of `pythonTitle`: the Boolean records whether the previous
character was alphabetic. -/
def pythonTitleAux : Bool → List Char → List Char
  | _, [] => []
  | prevAlpha, c :: rest =>
    (if prevAlpha then lcChar c else c.toUpper) :: pythonTitleAux c.isAlpha rest

/-- Model of Python `s.title()` for ASCII text: each alphabetic run starts
with an upper-case character and continues lower-case. -/
def pythonTitle (s : List Char) : List Char :=
  pythonTitleAux false s

/-- Model of Python `s.rstrip(ch)`: drop every trailing occurrence of `ch`. -/
def rstripChar (ch : Char) (s : List Char) : List Char :=
  ((s.reverse.dropWhile (· == ch))).reverse

/-- Model of Python `s.lstrip(ch)`: drop every leading occurrence of `ch`. -/
def lstripChar (ch : Char) (s : List Char) : List Char :=
  s.dropWhile (· == ch)

/-! ## Data model: persisted course records (crawler.py uses raw dicts) -/

/-- Modelled from the spec: one Availability Slot record (§3).  The crawler
code in the repository never constructs one — no code path writes the
`tee_times` key — so the field set is taken from the spec's words (time,
available-capacity, price, format, downstream identifiers, rate class). -/
structure AvailabilitySlot where
  time : String
  availableSpots : Nat
  greenFee : Int
  holes : Nat
  teesheetId : String
  teesheetSide : String
  rateType : String
deriving DecidableEq, Repr

/-- Modelled from the spec: the `tee_time_summary` aggregate of §6
(`total_slots`, `total_available_spots`, `price_range`, `date_range`).
No code path in the repository writes this key. -/
structure TeeTimeSummary where
  totalSlots : Nat
  totalAvailableSpots : Nat
  priceMin : Int
  priceMax : Int
  dateEarliest : String
  dateLatest : String
deriving DecidableEq, Repr

/-- A persisted golf-course record (a JSON object in `golf_courses.json`).
`none` in an `Option` field models an absent key; for `bookingUrl`,
`some none` models a key present with JSON `null` (Python `None`), exactly
what `course['booking_url'] = None` produces. -/
structure Course where
  url : Option String
  name : Option String
  bookingUrl : Option (Option String)
  teeTimes : Option (List AvailabilitySlot)
  teeTimeSummary : Option TeeTimeSummary
  lastUpdated : Option String
deriving DecidableEq, Repr

/-- Model of the loop guard `if not course.get('url')`: a course takes part
in processing only when the `url` key is present and non-empty. -/
def hasUrl (c : Course) : Bool :=
  match c.url with
  | some s => s ≠ ""
  | none => false

/-! ## `_process_course_simple` (crawler.py lines 175-237) -/

/-- Outcome of the single `crawler.arun` call made by
`_process_course_simple`, supplied by the environment: whether the call
raised, whether `result.success` held, and the value of
`result.extracted_content` (`none` models the attribute missing or falsy,
mirroring the `hasattr(...) and result.extracted_content` guard). -/
structure SimpleCrawlEnv where
  crawlRaises : Bool
  success : Bool
  extractedContent : Option String
deriving DecidableEq, Repr

/-- Patterns of line 198: the course's own URL counts as a booking system
when it contains one of these. -/
def currentUrlBookingPatterns : List String :=
  ["foreup", "teeitup", "book", "reserve"]

/-- The `booking_patterns` list of lines 207-214, searched for in the
extracted page content. -/
def simpleBookingPatterns : List String :=
  ["foreup.com", "teeitup.golf", "book", "reserve", "tee time", "teetime"]

/-- Model of lines 193-194: derive a display name from the crawled URL via
`url.split('//')[-1].split('/')[0].replace('www.', '').title().replace('-', ' ')`. -/
def deriveCourseName (u : String) : String :=
  String.mk (replaceAllL "-".data " ".data
    (pythonTitle (replaceAllL "www.".data [] (splitFirstPiece "/".data
      (splitLastPiece "//".data u.data)))))

/-- Model of `_process_course_simple` (lines 175-237).  The course dict is
mutated in place in Python; here the updated record is returned.  The only
exception source is the `arun` call (modelled by `crawlRaises`); the
`except` handler sets `booking_url` to `None` and nothing else. -/
def process_course_simple (env : SimpleCrawlEnv) (now : String) (c : Course) : Course :=
  let u := c.url.getD ""
  if env.crawlRaises then
    { c with bookingUrl := some none }
  else if env.success then
    let c1 := { c with name := some (deriveCourseName u), lastUpdated := some now }
    if currentUrlBookingPatterns.any (fun p => containsLowered u p) then
      { c1 with bookingUrl := some (some u) }
    else
      let html := env.extractedContent.getD ""
      if html ≠ "" then
        if simpleBookingPatterns.any (fun p => containsLowered html p) then
          { c1 with bookingUrl := some (some u) }
        else
          { c1 with bookingUrl := some none }
      else
        { c1 with bookingUrl := some none }
  else
    { c with bookingUrl := some none }

/-- The condition under which `_process_course_simple` ends with a
discovered booking URL (every other path stores `None`). -/
def discoversBookingUrl (env : SimpleCrawlEnv) (u : String) : Bool :=
  !env.crawlRaises && env.success &&
    (currentUrlBookingPatterns.any (fun p => containsLowered u p) ||
      (env.extractedContent.getD "" ≠ "" &&
        simpleBookingPatterns.any (fun p => containsLowered (env.extractedContent.getD "") p)))

/-! ## The run loop of `update_course_booking_urls` (lines 51-130) -/

/-- Outcome of processing one course inside the loop, as seen by the
`try/except` at lines 108-120: either normal completion with the updated
record, or an exception carrying a message (the record reflects whatever
in-place mutation happened before the raise). -/
inductive ProcOutcome where
  | ok (c : Course)
  | err (c : Course) (msg : String)
deriving DecidableEq, Repr

/-- The rate-limit test of line 114: `'rate limit' in str(e).lower()`. -/
def isRateLimitMsg (msg : String) : Bool :=
  containsLowered msg "rate limit"

/-- Model of the course loop of `update_course_booking_urls`
(lines 101-124): courses without a URL are skipped, a rate-limit
exception returns immediately (leaving the remaining courses untouched
and skipping the save), any other exception just moves on.  Returns the
in-memory course list at loop exit together with an aborted flag. -/
def runCourses (proc : Course → ProcOutcome) : List Course → List Course × Bool
  | [] => ([], false)
  | c :: rest =>
    if hasUrl c = false then
      let p := runCourses proc rest
      (c :: p.1, p.2)
    else
      match proc c with
      | .ok c1 =>
        let p := runCourses proc rest
        (c1 :: p.1, p.2)
      | .err c1 msg =>
        if isRateLimitMsg msg then (c1 :: rest, true)
        else
          let p := runCourses proc rest
          (c1 :: p.1, p.2)

/-- The record a single course ends up with when the loop does not abort
at it. -/
def stepCourse (proc : Course → ProcOutcome) (c : Course) : Course :=
  if hasUrl c = false then c
  else
    match proc c with
    | .ok c1 => c1
    | .err c1 _ => c1

/-- Whether the loop aborts (rate limit) at this course. -/
def abortsRun (proc : Course → ProcOutcome) (c : Course) : Bool :=
  hasUrl c &&
    (match proc c with
     | .ok _ => false
     | .err _ msg => isRateLimitMsg msg)

/-- Model of `update_course_booking_urls` at the level of the persisted
file (lines 51-130).  The argument and result are the data file's content
(`none` = file absent).  `_save_courses` (lines 170-173) rewrites the file
with the in-memory list; it runs only when the loop was not aborted by a
rate limit and the initial load produced a non-empty list. -/
def update_course_booking_urls (proc : Course → ProcOutcome) :
    Option (List Course) → Option (List Course)
  | none => none
  | some [] => some []
  | some (c :: cs) =>
    let p := runCourses proc (c :: cs)
    if p.2 then some (c :: cs) else some p.1

/-! ## `_detect_tee_times` (lines 821-872): the availability heuristic -/

/-- The `golf_booking_patterns` list (lines 824-829). -/
def golf_booking_patterns : List String :=
  ["select a tee time", "choose a tee time", "available tee times", "book your tee time",
   "tee time booking", "golf tee times", "reserve tee time", "book tee time",
   "foreup", "teeitup", "golfnow", "tee time calendar", "golf booking calendar",
   "time slot", "booking slot", "golf reservation", "tee time reservation"]

/-- The `booking_widget_patterns` list (lines 832-836). -/
def booking_widget_patterns : List String :=
  ["booking widget", "tee time widget", "golf booking", "reservation system",
   "select date", "select time", "choose date", "choose time", "date picker",
   "time picker", "calendar widget", "booking calendar"]

/-- The `booking_action_patterns` list (lines 839-842). -/
def booking_action_patterns : List String :=
  ["book now", "reserve now", "book tee time", "reserve tee time", "select time",
   "choose time", "book golf", "reserve golf", "book online", "reserve online"]

/-- The `booking_systems` list (line 865). -/
def booking_systems : List String :=
  ["foreup.com", "teeitup.golf", "golfnow.com", "chronogolf.com"]

/-- Model of `_detect_tee_times` (lines 821-872): lower-case the rendered
page content, then return true as soon as any pattern of the four fixed
lists occurs in it as a substring.  (Each Python `for` loop with an early
`return True` is an `any`.) -/
def detect_tee_times (content : String) : Bool :=
  let c := lcStr content
  golf_booking_patterns.any (fun p => containsL c p.data) ||
  booking_widget_patterns.any (fun p => containsL c p.data) ||
  booking_action_patterns.any (fun p => containsL c p.data) ||
  booking_systems.any (fun p => containsL c p.data)

/-- All the fixed phrases `_detect_tee_times` searches for, in scan order. -/
def allDetectPatterns : List String :=
  golf_booking_patterns ++ booking_widget_patterns ++
    booking_action_patterns ++ booking_systems

/-! ## `_check_for_login_fields` (lines 305-369) -/

/-- The `login_selectors` list (lines 309-319). -/
def login_selectors : List String :=
  ["input[name=\"username\"]",
   "input[name=\"email\"]",
   "input[type=\"email\"]",
   "input[id*=\"username\"]",
   "input[id*=\"email\"]",
   "input[placeholder*=\"email\"]",
   "input[placeholder*=\"username\"]",
   "input[placeholder*=\"Email\"]",
   "input[placeholder*=\"Username\"]"]

/-- The `password_selectors` list (lines 321-327). -/
def password_selectors : List String :=
  ["input[name=\"password\"]",
   "input[type=\"password\"]",
   "input[id*=\"password\"]",
   "input[placeholder*=\"password\"]",
   "input[placeholder*=\"Password\"]"]

/-- The `form_indicators` list (lines 350-357). -/
def form_indicators : List String :=
  ["form[action*=\"login\"]",
   "form[action*=\"signin\"]",
   "form[id*=\"login\"]",
   "form[class*=\"login\"]",
   "form[id*=\"signin\"]",
   "form[class*=\"signin\"]"]

/-- Model of `_check_for_login_fields`.  The live DOM is abstracted as the
list of CSS selectors that `page.query_selector` would resolve to an
element; the function returns true when any selector of the three source
lists (tried in source order) matches. -/
def check_for_login_fields (dom : List String) : Bool :=
  login_selectors.any (fun s => dom.contains s) ||
  password_selectors.any (fun s => dom.contains s) ||
  form_indicators.any (fun s => dom.contains s)

/-! ## `_recursive_tee_time_search_arun` (lines 727-765) -/

/-- What one navigated page looks like to the `after_goto` hook: the
rendered markup, the DOM selector set (for the login-field check), the
markup after a login attempt settles, the result of the
`_find_next_candidate_link` DOM scan, and the `href` attributes of the
page's anchors in document order (`none` = anchor without `href`), used by
`_find_booking_url_on_page`. -/
structure ProbePage where
  content : String
  dom : List String
  postLoginContent : String
  nextCandidate : Option String
  anchors : List (Option String)

/-- What the `after_goto` hook of `_recursive_tee_time_search_arun` stores
in its `result` dict (lines 732-757). -/
structure HookResult where
  teeTimesFound : Bool
  loginNeeded : Bool
  nextUrl : Option String
deriving DecidableEq, Repr

/-- Model of the `after_goto` hook body (lines 733-757).  `haveCreds`
models `username and password` both being set.  Step order as in the
source: tee-time detection first (returning at once when it fires), then
the login-field check, then — only when tee times were still not found —
the next-candidate scan, keeping the candidate only when it differs from
the current URL. -/
def after_goto_step (pg : ProbePage) (url : String) (haveCreds : Bool) : HookResult :=
  if detect_tee_times pg.content then
    { teeTimesFound := true, loginNeeded := false, nextUrl := none }
  else
    let loginNeeded := check_for_login_fields pg.dom
    let found :=
      if loginNeeded && haveCreds then detect_tee_times pg.postLoginContent
      else false
    if found then
      { teeTimesFound := true, loginNeeded := loginNeeded, nextUrl := none }
    else
      let nextUrl :=
        match pg.nextCandidate with
        | some nu => if nu ≠ url then some nu else none
        | none => none
      { teeTimesFound := false, loginNeeded := loginNeeded, nextUrl := nextUrl }

/-- Helper of `recursive_tee_time_search`: fuel-indexed form of the
recursion of lines 727-765, with `fuel = max_depth + 1 - depth` so that
`fuel = 0` is exactly the `depth > max_depth` guard of line 728 (which
returns before the `crawler.arun` navigation of line 759).  The returned
list is the trace of URLs actually navigated. -/
def recursiveSearchAux (w : String → ProbePage) (haveCreds : Bool) :
    Nat → String → Bool × List String
  | 0, _ => (false, [])
  | Nat.succ fuel, url =>
    let r := after_goto_step (w url) url haveCreds
    if r.teeTimesFound then (true, [url])
    else
      match r.nextUrl with
      | some nu =>
        let p := recursiveSearchAux w haveCreds fuel nu
        (p.1, url :: p.2)
      | none => (false, [url])

/-- Model of `_recursive_tee_time_search_arun(crawler, url, …, depth, max_depth)`.
The page world `w` gives the page state reached by navigating to each URL. -/
def recursive_tee_time_search (w : String → ProbePage) (haveCreds : Bool)
    (url : String) (depth maxDepth : Nat) : Bool × List String :=
  recursiveSearchAux w haveCreds (maxDepth + 1 - depth) url

/-! ## `_find_booking_url_on_page` (lines 767-819) -/

/-- The `priority_patterns` list (lines 770-773). -/
def priority_patterns : List String :=
  ["foreup.com", "teeitup.golf", "golfnow.com", "chronogolf.com", "teeoff.com",
   "golf18network.com", "ezlinks.com", "teesnap.com", "golfzing.com"]

/-- The `booking_patterns` list of this function (lines 776-778). -/
def general_booking_patterns : List String :=
  ["book", "reserve", "tee time", "teetime", "booking", "calendar", "schedule"]

/-- The `exclude_patterns` list (lines 781-785). -/
def exclude_patterns : List String :=
  ["facebook.com", "twitter.com", "instagram.com", "youtube.com", "linkedin.com",
   "pinterest.com", "tiktok.com", "snapchat.com", "reddit.com", "yelp.com",
   "google.com", "maps.google.com", "wikipedia.org", "amazon.com", "ebay.com"]

/-- Model of the return expression
`href if href.startswith('http') else page.url.rstrip('/') + '/' + href.lstrip('/')`
(lines 798 and 814). -/
def resolveHref (pageUrl href : String) : String :=
  if isPrefixL "http".data href.data then href
  else String.mk (rstripChar '/' pageUrl.data ++ '/' :: lstripChar '/' href.data)

/-- One pass over the anchor list: the first anchor whose `href` is present,
truthy (non-empty) and accepted by `ok`.  Models the two `for a in anchors`
loops of `_find_booking_url_on_page`. -/
def firstMatchingHref (ok : String → Bool) : List (Option String) → Option String
  | [] => none
  | none :: rest => firstMatchingHref ok rest
  | some h :: rest =>
    if h ≠ "" && ok h then some h else firstMatchingHref ok rest

/-- Test of line 796: the anchor targets a priority booking system. -/
def priorityHrefOk (h : String) : Bool :=
  priority_patterns.any (fun p => containsLowered h p)

/-- Whether an `href` matches the exclusion list (line 809). -/
def excludedHref (h : String) : Bool :=
  exclude_patterns.any (fun p => containsLowered h p)

/-- Test of the second loop (lines 803-816): not excluded, and matching a
general booking pattern. -/
def generalHrefOk (h : String) : Bool :=
  !excludedHref h && general_booking_patterns.any (fun p => containsLowered h p)

/-- Model of `_find_booking_url_on_page`: priority pass first (which does
not consult the exclusion list), then the general pass with the exclusion
filter; the winning `href` is resolved against the page URL. -/
def find_booking_url_on_page (pageUrl : String) (anchors : List (Option String)) :
    Option String :=
  match firstMatchingHref priorityHrefOk anchors with
  | some h => some (resolveHref pageUrl h)
  | none =>
    match firstMatchingHref generalHrefOk anchors with
    | some h => some (resolveHref pageUrl h)
    | none => none

/-! ## `find_booking_url_and_login` (lines 685-714): the discovery run -/

/-- Model of `find_booking_url_and_login` at the level of the persisted
data file.  It loads the courses, takes only the first one, finds a
booking URL on its home page (the `after_goto` hook of
`_find_booking_url_via_arun` runs `_find_booking_url_on_page` on the page
reached from the main URL), and runs the recursive tee-time search from
depth 0 with `max_depth = 5`.  The first component of the result is the
data file after the run, the second the reported outcome (`none` when the
run exits before the search, through an empty load or a missing `url`
key).  No path of the source calls `_save_courses`, so the file component
is the unchanged input in every branch. -/
def find_booking_url_and_login (w : String → ProbePage) (haveCreds : Bool) :
    Option (List Course) → Option (List Course) × Option Bool
  | none => (none, none)
  | some [] => (some [], none)
  | some (c :: cs) =>
    match c.url with
    | none => (some (c :: cs), none)
    | some mainUrl =>
      match find_booking_url_on_page mainUrl (w mainUrl).anchors with
      | none => (some (c :: cs), some false)
      | some bu =>
        (some (c :: cs), some (recursive_tee_time_search w haveCreds bu 0 5).1)

/-! ## `_click_with_navigation_handling` (lines 565-659) -/

/-- Environment of one `_click_with_navigation_handling` call.  Each field
models the outcome of one interaction with the browser: whether the
visibility-gated click, the forced click and the script click succeed
(exceptions from them are caught locally), the element's `href` attribute
and whether direct navigation to it succeeds, the navigation event caught
by the `framenavigated` listener, the page URL before and after the click,
and whether the `wait_for_load_state('networkidle')` calls return rather
than raise a timeout (such a raise propagates to the outer handler). -/
structure ClickEnv where
  visibleClickOk : Bool
  forceClickOk : Bool
  jsClickOk : Bool
  href : Option String
  gotoOk : Bool
  navEvent : Option String
  urlBefore : String
  urlAfter : String
  loadWaitOk : Bool
deriving DecidableEq, Repr

/-- Whether any of the four click strategies of lines 588-625 succeeds
(the fourth requires a truthy `href` and a successful `page.goto`). -/
def clickStrategySucceeds (e : ClickEnv) : Bool :=
  e.visibleClickOk || e.forceClickOk || e.jsClickOk ||
    (match e.href with
     | some h => h ≠ "" && e.gotoOk
     | none => false)

/-- Model of `_click_with_navigation_handling` (lines 565-659).  After a
successful strategy, the code inspects the captured navigation event
(truthy `new_url` required) or a URL change; on either it waits for the
network-idle load state, and an exception from that wait escapes to the
outer `except`, which returns `False`.  With no navigation at all the
function still returns `True`. -/
def click_with_navigation_handling (e : ClickEnv) : Bool :=
  if clickStrategySucceeds e = false then false
  else
    match e.navEvent with
    | some nu =>
      if nu ≠ "" then (if e.loadWaitOk then true else false)
      else if e.urlAfter ≠ e.urlBefore then (if e.loadWaitOk then true else false)
      else true
    | none =>
      if e.urlAfter ≠ e.urlBefore then (if e.loadWaitOk then true else false)
      else true

/-! ## Payload inspection (spec §4.2) -/

/-- A decoded JSON value: the shape of a captured network payload. -/
inductive Json where
  | null
  | bool (b : Bool)
  | num (n : Int)
  | str (s : String)
  | arr (items : List Json)
  | obj (fields : List (String × Json))

/-- Modelled from the spec: the fixed slot-field set of §4.2
(time / available-capacity / price / course-identifier / format), with the
concrete key names the spec's examples use (`time`, `available_spots`,
`green_fee`) plus conventional names for the remaining categories.  The
repository's source contains no API-interceptor code, so this component
exists only in the spec. -/
def slotFieldNames : List String :=
  ["time", "available_spots", "green_fee", "price", "course_id", "teesheet_id", "holes"]

/-- Whether a mapping's fields contain at least one slot field. -/
def hasSlotField (kvs : List (String × Json)) : Bool :=
  kvs.any (fun kv => slotFieldNames.contains kv.1)

/-- Whether some value of a mapping is a nested sequence that itself
satisfies `payloadIndicatesAvailability`; since the predicate applied to a
sequence only inspects the sequence's first element, the recursion of the
spec's words instantiates to exactly this check. -/
def seqValueIndicates : List (String × Json) → Bool
  | [] => false
  | (_, Json.arr (Json.obj kvs :: _)) :: rest => hasSlotField kvs || seqValueIndicates rest
  | _ :: rest => seqValueIndicates rest

/-- Modelled from the spec: `payloadIndicatesAvailability(payload)` of
§4.2, absent from the repository's source.  True when the payload is a
non-empty sequence whose first element is a mapping with a slot field, or
a mapping directly containing a slot field, or a mapping one of whose
values is a nested sequence satisfying the predicate. -/
def payloadIndicatesAvailability : Json → Bool
  | Json.arr (Json.obj kvs :: _) => hasSlotField kvs
  | Json.obj kvs => hasSlotField kvs || seqValueIndicates kvs
  | _ => false

/-! ## Spec-side time-token extraction (spec §4.1 tier 1)

The repository's availability heuristic, `_detect_tee_times`, contains no
time-token logic at all; the definitions below follow the SPEC's words
(regex-extract `H:MM[ ]?[AP]M` and bare `H:MM`, deduplicate, discard
tokens shorter than 4 characters) and exist solely to state the spec's
claim so it can be compared with the source's heuristic. -/

/-- Whether a character is an ASCII digit. -/
def isDigitC (c : Char) : Bool := '0' ≤ c && c ≤ '9'

/-- Modelled from the spec: match one time-of-day token at the head of the
character list — one or two digits, a colon, two digits, then an optional
`[ ]?[AP]M` suffix — returning the matched characters. -/
def matchTimeAt (cs : List Char) : Option (List Char) :=
  match cs with
  | [] => none
  | d1 :: rest =>
    if !isDigitC d1 then none
    else
      let hourRest : List Char × List Char :=
        match rest with
        | d2 :: rest2 => if isDigitC d2 then ([d1, d2], rest2) else ([d1], rest)
        | [] => ([d1], [])
      match hourRest.2 with
      | ':' :: m1 :: m2 :: rest2 =>
        if isDigitC m1 && isDigitC m2 then
          let base := hourRest.1 ++ [':', m1, m2]
          match rest2 with
          | ' ' :: a :: 'M' :: _ =>
            if a == 'A' || a == 'P' then some (base ++ [' ', a, 'M']) else some base
          | a :: 'M' :: _ =>
            if a == 'A' || a == 'P' then some (base ++ [a, 'M']) else some base
          | _ => some base
        else none
      | _ => none

/-- Modelled from the spec: left-to-right non-overlapping scan for time
tokens (the skip counter steps over the remainder of a matched token,
keeping the recursion structural). -/
def specScanTimes : Nat → List Char → List String
  | _, [] => []
  | Nat.succ k, _ :: rest => specScanTimes k rest
  | 0, c :: rest =>
    match matchTimeAt (c :: rest) with
    | some tok => String.mk tok :: specScanTimes (tok.length - 1) rest
    | none => specScanTimes 0 rest

/-- Modelled from the spec: the deduplicated set of extracted time tokens,
with tokens shorter than 4 characters discarded. -/
def specTimeTokens (s : String) : List String :=
  ((specScanTimes 0 s.data).dedup).filter (fun t => 4 ≤ t.length)

/-- Modelled from the spec: the login keyword set of §4.1
(login / sign-in / username / password / email / member-login). -/
def specLoginKeywords : List String :=
  ["login", "sign-in", "username", "password", "email", "member-login"]

/-- Whether a markup string contains none of the spec's login keywords. -/
def noLoginKeywords (s : String) : Bool :=
  specLoginKeywords.all (fun k => !containsLowered s k)

/-! ## Shared concrete fixtures for the run-loop theorems -/

/-- A course whose processing succeeds (used as a fixture). -/
def courseG1 : Course := ⟨some "https://good1.example", none, none, none, none, none⟩

/-- A course whose processing hits a rate-limit error (fixture). -/
def courseBad : Course := ⟨some "https://bad.example", none, none, none, none, none⟩

/-- A course after the rate-limited one, never reached (fixture). -/
def courseG2 : Course := ⟨some "https://good2.example", none, none, none, none, none⟩

/-- A processing environment in which exactly `courseBad` raises an
exception whose text names a rate limit. -/
def procRL : Course → ProcOutcome := fun c =>
  if c.url = some "https://bad.example" then
    ProcOutcome.err c "OpenAI rate limit exceeded"
  else
    ProcOutcome.ok { c with lastUpdated := some "t1" }

/-! ## Helper lemmas -/

/-- A hit of the anchor-scan loop is a member of the anchor list, has a
truthy `href`, and satisfies the pass's predicate. -/
theorem firstMatchingHref_some {ok : String → Bool} {l : List (Option String)} {h : String}
    (hfind : firstMatchingHref ok l = some h) :
    h ≠ "" ∧ ok h = true ∧ some h ∈ l := by
  induction l with
  | nil => simp [firstMatchingHref] at hfind
  | cons a rest ih =>
    cases a with
    | none =>
      rw [firstMatchingHref] at hfind
      rcases ih hfind with ⟨h1, h2, h3⟩
      exact ⟨h1, h2, List.mem_cons_of_mem _ h3⟩
    | some s =>
      rw [firstMatchingHref] at hfind
      by_cases hcond : (s ≠ "" && ok s) = true
      · rw [if_pos hcond] at hfind
        cases hfind
        simp only [Bool.and_eq_true, decide_eq_true_eq] at hcond
        exact ⟨hcond.1, hcond.2, List.mem_cons_self _ _⟩
      · rw [if_neg hcond] at hfind
        rcases ih hfind with ⟨h1, h2, h3⟩
        exact ⟨h1, h2, List.mem_cons_of_mem _ h3⟩

/-- If the anchor list holds a truthy `href` accepted by the pass's
predicate, the scan loop finds something. -/
theorem firstMatchingHref_isSome {ok : String → Bool} {l : List (Option String)} {h : String}
    (hmem : some h ∈ l) (hne : h ≠ "") (hok : ok h = true) :
    firstMatchingHref ok l ≠ none := by
  induction l with
  | nil => simp at hmem
  | cons a rest ih =>
    cases a with
    | none =>
      rw [firstMatchingHref]
      have : some h ∈ rest := by
        rcases List.mem_cons.mp hmem with heq | hm
        · cases heq
        · exact hm
      exact ih this
    | some s =>
      rw [firstMatchingHref]
      by_cases hcond : (s ≠ "" && ok s) = true
      · rw [if_pos hcond]; simp
      · rw [if_neg hcond]
        rcases List.mem_cons.mp hmem with heq | hm
        · exfalso
          have hs : s = h := by injection heq.symm
          apply hcond
          subst hs
          simp [hne, hok]
        · exact ih hm

/-! ## Claim C1 -/

/-- Claim C1, counterexample: the claim says a previously stored
`booking_url` is never overwritten on a failure path.  Concretely, a
course already holding `booking_url = "https://old.booking/x"` is crawled
successfully but neither its URL nor the extracted content matches any
booking pattern (no booking URL is discovered), and
`_process_course_simple` overwrites the stored `booking_url` with null. -/
theorem C1_counterexample :
    let c : Course := ⟨some "https://example.com", some "Old Name",
      some (some "https://old.booking/x"), some [], none, some "2025-01-01T00:00:00"⟩
    let env : SimpleCrawlEnv := ⟨false, true, some "welcome to our club"⟩
    discoversBookingUrl env "https://example.com" = false ∧
    c.bookingUrl = some (some "https://old.booking/x") ∧
    (process_course_simple env "2026-10-12T09:00:00" c).bookingUrl = some none := by
  decide

/-- Claim C1, amended: on every path where no booking URL is discovered,
`_process_course_simple` overwrites the stored `booking_url` with null
(rather than leaving it unchanged); the availability-slot fields
(`tee_times`, `tee_time_summary`) are never modified, and on a discovered
booking URL the stored value becomes the crawled URL itself. -/
theorem C1_amended (env : SimpleCrawlEnv) (now : String) (c : Course) :
    (process_course_simple env now c).teeTimes = c.teeTimes ∧
    (process_course_simple env now c).teeTimeSummary = c.teeTimeSummary ∧
    (discoversBookingUrl env (c.url.getD "") = false →
      (process_course_simple env now c).bookingUrl = some none) ∧
    (discoversBookingUrl env (c.url.getD "") = true →
      (process_course_simple env now c).bookingUrl = some (some (c.url.getD ""))) := by
  rcases env with ⟨cr, su, ec⟩
  cases cr <;> cases su <;>
    simp only [process_course_simple, discoversBookingUrl, Bool.not_true, Bool.not_false,
      Bool.false_and, Bool.true_and, Bool.and_false, Bool.and_true, if_true, if_false,
      Bool.true_eq_false, Bool.false_eq_true] <;>
    (try split_ifs) <;>
    simp_all

/-- Claim C1, witness for the amended theorem at the counterexample's
input: the slot list is untouched while the stored booking URL becomes
null. -/
theorem C1_witness :
    (process_course_simple ⟨false, true, some "welcome to our club"⟩ "2026-10-12T09:00:00"
      ⟨some "https://example.com", some "Old Name", some (some "https://old.booking/x"),
        some [], none, some "2025-01-01T00:00:00"⟩).teeTimes = some [] ∧
    (process_course_simple ⟨false, true, some "welcome to our club"⟩ "2026-10-12T09:00:00"
      ⟨some "https://example.com", some "Old Name", some (some "https://old.booking/x"),
        some [], none, some "2025-01-01T00:00:00"⟩).bookingUrl = some none :=
  ⟨(C1_amended ⟨false, true, some "welcome to our club"⟩ "2026-10-12T09:00:00"
      ⟨some "https://example.com", some "Old Name", some (some "https://old.booking/x"),
        some [], none, some "2025-01-01T00:00:00"⟩).1,
   (C1_amended ⟨false, true, some "welcome to our club"⟩ "2026-10-12T09:00:00"
      ⟨some "https://example.com", some "Old Name", some (some "https://old.booking/x"),
        some [], none, some "2025-01-01T00:00:00"⟩).2.2.1 (by decide)⟩

/-! ## Claim C2 -/

/-- Claim C2, counterexample: a page that is classified as a login wall
(a password input is present) and whose markup contains the login
keywords `login` and `password` is nonetheless reported available by the
availability heuristic — `_detect_tee_times` never looks at login
keywords — and the `after_goto` hook runs the availability check FIRST,
so the login wall is simultaneously reported as available and the login
check is skipped. -/
theorem C2_counterexample :
    let pg : ProbePage := ⟨"member login required. password needed. book now",
      ["input[type=\"password\"]"], "", none, []⟩
    check_for_login_fields pg.dom = true ∧
    containsLowered pg.content "login" = true ∧
    containsLowered pg.content "password" = true ∧
    detect_tee_times pg.content = true ∧
    (after_goto_step pg "https://m.example" true).teeTimesFound = true ∧
    (after_goto_step pg "https://m.example" true).loginNeeded = false := by
  decide

/-- Claim C2, amended: the precedence is the reverse of the claimed one.
The availability heuristic ignores login keywords and runs before the
login-wall check: when it fires, the hook returns at once with the login
check skipped; the page is marked as needing login only when availability
was NOT detected on its markup. -/
theorem C2_amended (pg : ProbePage) (url : String) (haveCreds : Bool) :
    (detect_tee_times pg.content = true →
      after_goto_step pg url haveCreds =
        { teeTimesFound := true, loginNeeded := false, nextUrl := none }) ∧
    ((after_goto_step pg url haveCreds).loginNeeded = true →
      detect_tee_times pg.content = false) := by
  constructor
  · intro hd
    unfold after_goto_step
    rw [if_pos hd]
  · intro hl
    by_cases hd : detect_tee_times pg.content = true
    · exfalso
      unfold after_goto_step at hl
      rw [if_pos hd] at hl
      simp at hl
    · simpa using hd

/-- Claim C2, witness for the amended theorem: on the counterexample's
page the hook reports availability with the login check skipped. -/
theorem C2_witness :
    after_goto_step ⟨"member login required. password needed. book now",
        ["input[type=\"password\"]"], "", none, []⟩ "https://m.example" true =
      { teeTimesFound := true, loginNeeded := false, nextUrl := none } :=
  (C2_amended ⟨"member login required. password needed. book now",
      ["input[type=\"password\"]"], "", none, []⟩ "https://m.example" true).1 (by decide)

/-! ## Claim C3 -/

/-- Claim C3, counterexample: markup consisting of three distinct
well-formed time tokens and no login keyword, on which the claim says the
availability heuristic returns true; the repository's `_detect_tee_times`
contains no time-token extraction at all and returns false. -/
theorem C3_counterexample :
    3 ≤ (specTimeTokens "9:00 AM 10:30 AM 14:15").length ∧
    noLoginKeywords "9:00 AM 10:30 AM 14:15" = true ∧
    detect_tee_times "9:00 AM 10:30 AM 14:15" = false := by
  decide

/-- Claim C3, amended: the availability heuristic performs no time-token
extraction; it returns true exactly when the lower-cased markup contains
one of the fixed booking phrases or brand tokens of its four pattern
lists, so markup whose only availability evidence is time-of-day tokens
is reported not available. -/
theorem C3_amended (s : String) :
    detect_tee_times s = allDetectPatterns.any (fun p => containsL (lcStr s) p.data) := by
  simp [detect_tee_times, allDetectPatterns, List.any_append, Bool.or_assoc]

/-! ## Claim C4 -/

/-- Claim C4, confirmed: for every depth strictly beyond the maximum, the
probe step fails immediately and its navigation trace is empty — the
`depth > max_depth` guard of `_recursive_tee_time_search_arun` returns
before the `crawler.arun` page load. -/
theorem C4_depth_guard (w : String → ProbePage) (haveCreds : Bool) (url : String)
    (depth maxDepth : Nat) (h : depth > maxDepth) :
    recursive_tee_time_search w haveCreds url depth maxDepth = (false, []) := by
  unfold recursive_tee_time_search
  have hz : maxDepth + 1 - depth = 0 := by omega
  rw [hz]
  rfl

/-- Claim C4, witness: at depth 6 with the default maximum 5, the search
returns failure with no page ever loaded. -/
theorem C4_witness :
    recursive_tee_time_search (fun _ => ⟨"", [], "", none, []⟩) true
      "https://a.example" 6 5 = (false, []) :=
  C4_depth_guard (fun _ => ⟨"", [], "", none, []⟩) true "https://a.example" 6 5 (by decide)

/-! ## Claim C5 -/

/-- Claim C5, counterexample: the claim says the function never returns a
link whose destination matches the exclusion list.  The priority pass of
`_find_booking_url_on_page` does not consult the exclusion list, so an
anchor whose `href` contains both `facebook.com` (excluded) and
`foreup.com` (priority brand) IS returned, and its destination matches
the exclusion list (indeed `facebook` even contains the booking keyword
`book`). -/
theorem C5_counterexample :
    find_booking_url_on_page "https://club.example"
        [some "https://www.facebook.com/pages/foreup.com"] =
      some "https://www.facebook.com/pages/foreup.com" ∧
    excludedHref "https://www.facebook.com/pages/foreup.com" = true ∧
    general_booking_patterns.any
      (fun p => containsLowered "https://www.facebook.com/pages/foreup.com" p) = true := by
  decide

/-- Claim C5, amended: the preference part holds — whenever some anchor
carries a truthy `href` matching a priority brand, the result is the
resolved first such anchor, regardless of generic-keyword anchors — and
the exclusion part holds only for the generic pass: when no anchor
matches a priority brand, any returned link comes from an anchor whose
`href` does not match the exclusion list and matches a booking keyword.
An anchor matching both a priority brand and the exclusion list is still
returned. -/
theorem C5_amended (pageUrl : String) (anchors : List (Option String)) :
    (∀ h, some h ∈ anchors → h ≠ "" → priorityHrefOk h = true →
      ∃ hp, firstMatchingHref priorityHrefOk anchors = some hp ∧ priorityHrefOk hp = true ∧
        find_booking_url_on_page pageUrl anchors = some (resolveHref pageUrl hp)) ∧
    (firstMatchingHref priorityHrefOk anchors = none →
      ∀ r, find_booking_url_on_page pageUrl anchors = some r →
        ∃ h, some h ∈ anchors ∧ excludedHref h = false ∧
          general_booking_patterns.any (fun p => containsLowered h p) = true ∧
          r = resolveHref pageUrl h) := by
  constructor
  · intro h hmem hne hok
    cases hfp : firstMatchingHref priorityHrefOk anchors with
    | none => exact absurd hfp (firstMatchingHref_isSome hmem hne hok)
    | some hp =>
      rcases firstMatchingHref_some hfp with ⟨-, hokp, -⟩
      refine ⟨hp, rfl, hokp, ?_⟩
      unfold find_booking_url_on_page
      rw [hfp]
  · intro hnone r hfind
    unfold find_booking_url_on_page at hfind
    rw [hnone] at hfind
    cases hg : firstMatchingHref generalHrefOk anchors with
    | none => rw [hg] at hfind; cases hfind
    | some h =>
      rw [hg] at hfind
      cases hfind
      rcases firstMatchingHref_some hg with ⟨hne, hok, hmem⟩
      unfold generalHrefOk at hok
      simp only [Bool.and_eq_true, Bool.not_eq_true'] at hok
      exact ⟨h, hmem, hok.1, hok.2, rfl⟩

/-- Claim C5, witness for the amended theorem: on a page holding a generic
"reserve" anchor before a `foreup.com` anchor, the priority-brand anchor
wins. -/
theorem C5_witness :
    ∃ hp, firstMatchingHref priorityHrefOk
        [some "/reserve-now", some "https://foreup.com/19x"] = some hp ∧
      priorityHrefOk hp = true ∧
      find_booking_url_on_page "https://club.example"
          [some "/reserve-now", some "https://foreup.com/19x"] =
        some (resolveHref "https://club.example" hp) :=
  (C5_amended "https://club.example" [some "/reserve-now", some "https://foreup.com/19x"]).1
    "https://foreup.com/19x" (by decide) (by decide) (by decide)

/-! ## Claim C6 -/

/-- Claim C6, confirmed: when the exception raised while processing a
course carries a rate-limit message, `update_course_booking_urls` returns
at once — the courses before it are processed exactly once each, the
failing course is not retried (its record is whatever the single
processing attempt left), and every following course is left untouched. -/
theorem C6_rate_limit_aborts (proc : Course → ProcOutcome) (pre : List Course)
    (c : Course) (post : List Course) (cFin : Course) (msg : String)
    (hpre : ∀ p ∈ pre, abortsRun proc p = false)
    (hurl : hasUrl c = true)
    (hproc : proc c = ProcOutcome.err cFin msg)
    (hmsg : isRateLimitMsg msg = true) :
    runCourses proc (pre ++ c :: post) = (pre.map (stepCourse proc) ++ cFin :: post, true) := by
  induction pre with
  | nil =>
    simp only [List.nil_append, List.map_nil]
    rw [runCourses, hproc]
    simp [hurl, hmsg]
  | cons p rest ih =>
    have hp := hpre p (List.mem_cons_self _ _)
    have hrest : ∀ q ∈ rest, abortsRun proc q = false :=
      fun q hq => hpre q (List.mem_cons_of_mem _ hq)
    have ihr := ih hrest
    simp only [List.cons_append, List.map_cons]
    rw [runCourses]
    unfold abortsRun at hp
    by_cases hu : hasUrl p = false
    · have hsc : stepCourse proc p = p := by
        unfold stepCourse
        rw [if_pos hu]
      rw [if_pos hu, ihr, hsc]
    · rw [if_neg hu]
      cases hpp : proc p with
      | ok p1 =>
        have hsc : stepCourse proc p = p1 := by
          unfold stepCourse
          rw [if_neg hu, hpp]
        rw [ihr, hsc]
      | err p1 m =>
        rw [hpp] at hp
        have hm : isRateLimitMsg m = false := by
          cases hbu : hasUrl p
          · exact absurd hbu (by simpa using hu)
          · simpa [hbu] using hp
        have hsc : stepCourse proc p = p1 := by
          unfold stepCourse
          rw [if_neg hu, hpp]
        simp only [hm, Bool.false_eq_true, if_false, ihr, hsc]

/-- Claim C6, witness: in a three-course run whose middle course raises a
rate-limit error, the first course is processed, the middle course keeps
its single-attempt record, and the last course is never processed. -/
theorem C6_witness :
    runCourses procRL ([courseG1] ++ courseBad :: [courseG2]) =
      ([courseG1].map (stepCourse procRL) ++ courseBad :: [courseG2], true) :=
  C6_rate_limit_aborts procRL [courseG1] courseBad [courseG2] courseBad
    "OpenAI rate limit exceeded" (by decide) (by decide) (by decide) (by decide)

/-! ## Claim C7 -/

/-- Claim C7, counterexample: a discovery run that finishes successfully
(priority booking link found, availability confirmed at depth 0) leaves
the persisted sequence exactly as loaded — the processed venue still has
no `booking_url`, no `tee_times`, no `tee_time_summary`, and its
`last_updated` is the stale pre-run value, refuting the claim that the
sequence is rewritten with those fields set. -/
theorem C7_counterexample :
    let c : Course := ⟨some "https://gc.example", some "Old", none, none, none,
      some "2025-01-01"⟩
    let w : String → ProbePage := fun _ =>
      ⟨"book now and play", [], "", none, [some "https://foreup.com/booking"]⟩
    find_booking_url_and_login w true (some [c]) = (some [c], some true) ∧
    c.bookingUrl = none ∧ c.teeTimes = none ∧ c.teeTimeSummary = none ∧
    c.lastUpdated = some "2025-01-01" := by
  decide

/-- Claim C7, amended: the recursive discovery run
(`find_booking_url_and_login`) never persists anything: no code path of
it calls `_save_courses`, so the data file is left unchanged on every
input and outcome; only the separate simple/LLM update flows rewrite the
file, and no flow at all writes `tee_times` or `tee_time_summary`. -/
theorem C7_amended (w : String → ProbePage) (haveCreds : Bool)
    (file : Option (List Course)) :
    (find_booking_url_and_login w haveCreds file).1 = file := by
  cases file with
  | none => rfl
  | some l =>
    cases l with
    | nil => rfl
    | cons c cs =>
      simp only [find_booking_url_and_login]
      split
      · rfl
      · split <;> rfl

/-! ## Claim C8 -/

/-- Claim C8, confirmed (spec-modelled: the API interceptor is absent from
the repository's source, so `payloadIndicatesAvailability` is modelled
from §4.2 of the spec): a non-empty sequence whose first element is a
mapping with a slot field satisfies the predicate, as does a mapping one
of whose values is a nested sequence satisfying it; a mapping with
neither a slot field nor such a nested sequence does not.  The spec's
three concrete examples evaluate as claimed. -/
theorem C8_payload_predicate :
    (∀ kvs rest, hasSlotField kvs = true →
      payloadIndicatesAvailability (Json.arr (Json.obj kvs :: rest)) = true) ∧
    (∀ kvs, seqValueIndicates kvs = true →
      payloadIndicatesAvailability (Json.obj kvs) = true) ∧
    (∀ kvs, hasSlotField kvs = false → seqValueIndicates kvs = false →
      payloadIndicatesAvailability (Json.obj kvs) = false) ∧
    payloadIndicatesAvailability
      (Json.arr [Json.obj [("time", Json.str "09:00"), ("available_spots", Json.num 2)]]) = true ∧
    payloadIndicatesAvailability
      (Json.obj [("slots", Json.arr [Json.obj [("time", Json.str "09:00"),
        ("green_fee", Json.num 40)]])]) = true ∧
    payloadIndicatesAvailability (Json.obj [("status", Json.str "ok")]) = false := by
  refine ⟨?_, ?_, ?_, by decide, by decide, by decide⟩
  · intro kvs rest h
    simp [payloadIndicatesAvailability, h]
  · intro kvs h
    simp [payloadIndicatesAvailability, h]
  · intro kvs h1 h2
    simp [payloadIndicatesAvailability, h1, h2]

/-- Claim C8, witness: the universal parts of the predicate theorem
applied at the spec's concrete example payloads. -/
theorem C8_witness :
    payloadIndicatesAvailability
      (Json.arr [Json.obj [("time", Json.str "09:00"), ("available_spots", Json.num 2)]]) = true ∧
    payloadIndicatesAvailability
      (Json.obj [("slots", Json.arr [Json.obj [("time", Json.str "09:00"),
        ("green_fee", Json.num 40)]])]) = true :=
  ⟨C8_payload_predicate.1 [("time", Json.str "09:00"), ("available_spots", Json.num 2)] []
      (by decide),
   C8_payload_predicate.2.1 [("slots", Json.arr [Json.obj [("time", Json.str "09:00"),
      ("green_fee", Json.num 40)]])] (by decide)⟩

/-! ## Claim C9 -/

/-- Claim C9, counterexample: the claim says the call returns true
whenever one of the four click strategies succeeds.  In this environment
the first strategy (visibility-gated native click) succeeds and a
navigation event fires, but the subsequent `wait_for_load_state`
(network-idle) raises; the exception reaches the outer handler and the
call returns false despite the successful click. -/
theorem C9_counterexample :
    let e : ClickEnv := ⟨true, false, false, none, false, some "https://next.example",
      "https://a.example", "https://a.example", false⟩
    e.visibleClickOk = true ∧ clickStrategySucceeds e = true ∧
    click_with_navigation_handling e = false := by
  decide

/-- Claim C9, amended: a true result still implies some strategy
succeeded, and in every environment where the post-click settle waits do
not raise, the call returns true exactly when one of the four strategies
succeeds; a raising settle wait can turn a successful click into a false
return. -/
theorem C9_amended (e : ClickEnv) :
    (click_with_navigation_handling e = true → clickStrategySucceeds e = true) ∧
    (e.loadWaitOk = true → click_with_navigation_handling e = clickStrategySucceeds e) := by
  constructor
  · intro h
    by_cases hs : clickStrategySucceeds e = false
    · unfold click_with_navigation_handling at h
      rw [if_pos hs] at h
      cases h
    · simpa using hs
  · intro hw
    unfold click_with_navigation_handling
    by_cases hs : clickStrategySucceeds e = false
    · rw [if_pos hs, hs]
    · have hst : clickStrategySucceeds e = true := by simpa using hs
      rw [if_neg hs, hst]
      cases e.navEvent with
      | none => split_ifs <;> simp [hw]
      | some nu => split_ifs <;> simp [hw]

/-- Claim C9, witness for the amended theorem: with settle waits that do
not raise, the call's result coincides with strategy success. -/
theorem C9_witness :
    click_with_navigation_handling ⟨true, false, false, none, false,
        some "https://next.example", "https://a.example", "https://b.example", true⟩ =
      clickStrategySucceeds ⟨true, false, false, none, false,
        some "https://next.example", "https://a.example", "https://b.example", true⟩ :=
  (C9_amended ⟨true, false, false, none, false, some "https://next.example",
      "https://a.example", "https://b.example", true⟩).2 (by decide)

/-! ## Claim C10 -/

/-- Claim C10, confirmed: when the run loop aborts with a rate-limit
error, the early `return` skips the `_save_courses` call, so the
persisted file keeps its exact pre-run content — including the records of
venues already processed in memory earlier in the run. -/
theorem C10_no_save_on_abort (proc : Course → ProcOutcome) (courses : List Course)
    (h : (runCourses proc courses).2 = true) :
    update_course_booking_urls proc (some courses) = some courses := by
  cases courses with
  | nil => rfl
  | cons c cs =>
    simp only [update_course_booking_urls]
    rw [if_pos h]

/-- Claim C10, witness: the three-course rate-limited run from the C6
fixture leaves the file content untouched. -/
theorem C10_witness :
    update_course_booking_urls procRL (some [courseG1, courseBad, courseG2]) =
      some [courseG1, courseBad, courseG2] :=
  C10_no_save_on_abort procRL [courseG1, courseBad, courseG2] (by decide)

end TeeTimeAI
